import Mathlib

/-!
Verification development for the beetFs virtual-filesystem plugin
(`beetsplug/beetFs.py`).  The Python-2 byte strings of the source are
modelled as `List Nat` (lists of `ord` values); in-memory file objects
(`BytesIO`) are modelled as a byte list together with a read position;
Python exceptions are modelled by the `PyErr` type.  Each definition
translates one function of the source.
-/

set_option autoImplicit false

namespace BeetFs

/-- Python exceptions that the modelled code can raise.  `unboundLocal`
stands for `UnboundLocalError`/`NameError`, `exn` for a bare `Exception`
with a message, `keyError` for `KeyError`, and `flacNoHeader` /
`flacVorbis` for mutagen's `FLACNoHeaderError` / `FLACVorbisError`
(both of which derive from `IOError` in the mutagen of this era). -/
inductive PyErr where
  | typeError : PyErr
  | attributeError : PyErr
  | unboundLocal : PyErr
  | indexError : PyErr
  | keyError : String → PyErr
  | exn : String → PyErr
  | flacNoHeader : String → PyErr
  | flacVorbis : String → PyErr
deriving DecidableEq

instance exceptDecEq {ε α : Type} [DecidableEq ε] [DecidableEq α] :
    DecidableEq (Except ε α) := fun x y =>
  match x, y with
  | Except.error a, Except.error b =>
    if h : a = b then isTrue (by rw [h])
    else isFalse (by intro hh; cases hh; exact h rfl)
  | Except.error _, Except.ok _ => isFalse (by intro hh; cases hh)
  | Except.ok _, Except.error _ => isFalse (by intro hh; cases hh)
  | Except.ok a, Except.ok b =>
    if h : a = b then isTrue (by rw [h])
    else isFalse (by intro hh; cases hh; exact h rfl)

/-- Exceptions caught by `except IOError` in `FileHandler.write`:
mutagen's FLAC errors derive from `IOError`. -/
def isIOError : PyErr → Bool
  | PyErr.flacNoHeader _ => true
  | PyErr.flacVorbis _ => true
  | _ => false

/-- A `BytesIO` file object: the underlying bytes plus the read position. -/
structure BStream where
  data : List Nat
  pos : Nat
deriving DecidableEq

/-- Model of `fileobj.read(n)`: returns the next `n` bytes (fewer at end
of stream) and advances the position by the number of bytes actually
read. -/
def bread (s : BStream) (n : Nat) : List Nat × BStream :=
  let r := (s.data.drop s.pos).take n
  (r, { data := s.data, pos := s.pos + r.length })

/-- Model of `fileobj.seek(p)` (absolute). -/
def bseek (s : BStream) (p : Nat) : BStream :=
  { data := s.data, pos := p }

/-- `to_int_be` from the source: big-endian byte-string to integer,
`reduce(lambda a, b: (a << 8) + ord(b), string, 0)`. -/
def to_int_be (l : List Nat) : Nat :=
  l.foldl (fun a b => a * 256 + b) 0

/-- mutagen's `BitPaddedInt` on a 7-bits-per-byte big-endian byte
string: each byte contributes its low 7 bits, first byte most
significant. -/
def bitPaddedInt (l : List Nat) : Nat :=
  l.foldl (fun a b => a * 128 + b % 128) 0

/-- The bytes of the magic `"fLaC"`. -/
def fLaCBytes : List Nat := [102, 76, 97, 67]

/-- The bytes of `"ID3"`. -/
def id3Bytes : List Nat := [73, 68, 51]

/-- `InterpolatedFLAC.__check_header`.  The source's `return size` is
dead code (it sits after the `raise` inside `if size is None:`), so on
every non-raising path the function falls off the end and returns
`None`; hence the model returns only the advanced stream.  On an
invalid header the source formats `"%r ..." % fileobj.name`, and a
`BytesIO` object has no `name` attribute, so an `AttributeError` is
raised before the `FLACNoHeaderError` is even constructed. -/
def checkHeader (s : BStream) : Except PyErr BStream :=
  let r4 := bread s 4
  if r4.1 = fLaCBytes then Except.ok r4.2
  else if r4.1.take 3 = id3Bytes then
    let r6 := bread r4.2 6
    let size := 14 + bitPaddedInt (r6.1.drop 2)
    let s3 := bseek r6.2 (size - 4)
    let m := bread s3 4
    if m.1 = fLaCBytes then Except.ok m.2
    else Except.error PyErr.attributeError
  else Except.error PyErr.attributeError

/-- `InterpolatedFLAC.__read_metadata_block`.  In the source the block
classification `block = self.METADATA_BLOCKS[byte & 0x7F](data)` is dead
code: it is indented after the `raise` inside `if len(data) != size:`.
So when the payload is short the bare `Exception` propagates (the
`except` clause only catches `IndexError`/`TypeError`), and when the
payload is complete the `else:` clause executes
`self.metadata_blocks.append(block)` with `block` never assigned,
raising `UnboundLocalError`.  Reading a byte at end of stream makes
`ord('')` raise `TypeError`. -/
def readMetadataBlock (s : BStream) : Except PyErr (BStream × Bool) :=
  match (bread s 1).1 with
  | [] => Except.error PyErr.typeError
  | _byte :: _ =>
    let s1 := (bread s 1).2
    let size := to_int_be (bread s1 3).1
    let s2 := (bread s1 3).2
    let data := (bread s2 size).1
    if data.length ≠ size then
      Except.error (PyErr.exn "file said bytes, read bytes")
    else
      Except.error PyErr.unboundLocal

/-- The `while self.__read_metadata_block(self.fileobj): pass` loop of
`InterpolatedFLAC.load`.  The body is re-entered only when
`__read_metadata_block` returns truthily, which never happens (every
call raises, see `readMetadataBlock_errors`); the fuel parameter only
serves totality and is inexhaustible in practice since each pass
consumes at least one byte. -/
def loadLoop : Nat → BStream → Except PyErr BStream
  | 0, _ => Except.error PyErr.unboundLocal
  | fuel + 1, s =>
    match readMetadataBlock s with
    | Except.error e => Except.error e
    | Except.ok (s2, cont) => if cont then loadLoop fuel s2 else Except.ok s2

/-- A FLAC metadata block as held in `metadata_blocks`: either a
`Padding` block (with a mutable length) or any other block with a fixed
payload and type code. -/
inductive MBlock where
  | padding : Nat → MBlock
  | raw : Nat → List Nat → MBlock
deriving DecidableEq

def MBlock.isPadding : MBlock → Bool
  | MBlock.padding _ => true
  | _ => false

def MBlock.padLength : MBlock → Nat
  | MBlock.padding n => n
  | _ => 0

/-- mutagen's `MetadataBlock.group_padding`: remove every padding
block and append a single padding block whose length is the sum of the
removed lengths plus 4 bytes per removed block header beyond the first.
(`get_header` always appends a padding block first, so the padding
count is at least one and the natural subtraction is exact.) -/
def group_padding (blocks : List MBlock) : List MBlock :=
  let paddings := blocks.filter MBlock.isPadding
  let rest := blocks.filter fun b => ! MBlock.isPadding b
  rest ++ [MBlock.padding ((paddings.map MBlock.padLength).sum + 4 * (paddings.length - 1))]

/-- The state of the decoded FLAC object that `load` would produce.
`load` never succeeds in this source (see `flacLoad_errors`), so no
value of this type is ever constructed: `tags` stays `None` and
`metadata_blocks` stays empty on every path, because the block
classification line is dead code. -/
structure FlacObj where
  blocks : List MBlock
  tags : Option (List (String × List String))
deriving DecidableEq

/-- `InterpolatedFLAC.load` over in-memory file data.  After the header
check, the metadata loop raises on its first iteration (see
`readMetadataBlock_errors`), so the audio-start check and the
stream-info check below it are unreachable; they are kept for fidelity.
Were they reached, `metadata_blocks` would still be empty (the
classification line is dead code), so `metadata_blocks[0]` raises
`IndexError`, caught and re-raised as
`FLACNoHeaderError("Stream info block not found")`. -/
def flacLoad (filedata : List Nat) : Except PyErr FlacObj :=
  let s : BStream := { data := filedata, pos := 0 }
  match checkHeader s with
  | Except.error e => Except.error e
  | Except.ok s1 =>
    match loadLoop (filedata.length + 1) s1 with
    | Except.error e => Except.error e
    | Except.ok s2 =>
      let r2 := bread s2 2
      if r2.1 = [255, 248] ∨ r2.1 = [255, 249] then
        Except.error (PyErr.flacNoHeader "Stream info block not found")
      else
        Except.error (PyErr.flacNoHeader "End of metadata did not start audio")

/-- `InterpolatedFLAC.__find_audio_offset`: walk the metadata blocks of
the raw stream, stopping after the first block whose is-last bit is
set, and return the resulting file position.  `ord('')` at end of
stream raises `TypeError`.  The fuel parameter only serves totality:
each pass consumes at least one byte, so the caller's
`data.length + 1` can never run out. -/
def findAudioOffset : Nat → BStream → Except PyErr Nat
  | 0, _ => Except.error PyErr.typeError
  | fuel + 1, s =>
    match (bread s 1).1 with
    | [] => Except.error PyErr.typeError
    | byte :: _ =>
      let s1 := (bread s 1).2
      let size := to_int_be (bread s1 3).1
      let s2 := (bread s1 3).2
      let s3 := (bread s2 size).2
      if (byte >>> 7) &&& 1 = 1 then Except.ok s3.pos
      else findAudioOffset fuel s3

/-- `InterpolatedFLAC.get_header`.  The source appends a fresh 1020-byte
padding block, groups padding, then computes
`available = self.__find_audio_offset(f) - self.__check_header(f)`.
Because `__check_header`'s `return size` is dead code it returns `None`,
so this subtraction raises `TypeError` on every call (after
`__find_audio_offset` has run); the padding fit/adjust logic below that
line in the source is unreachable and is therefore not part of the
function's behaviour. -/
def get_header (blocks : List MBlock) (filedata : List Nat) : Except PyErr (List Nat × Nat) :=
  let s : BStream := { data := filedata, pos := 0 }
  let _blocks2 := group_padding (blocks ++ [MBlock.padding 1020])
  match checkHeader s with
  | Except.error e => Except.error e
  | Except.ok s1 =>
    match findAudioOffset (filedata.length + 1) s1 with
    | Except.error e => Except.error e
    | Except.ok _audioOff => Except.error PyErr.typeError

/-- A minimal well-formed FLAC byte stream: magic, one stream-info
block (type code 0) carrying the is-last flag, 4 bytes of payload, and
the start of an audio frame. -/
def demoFlacBytes : List Nat :=
  fLaCBytes ++ [128, 0, 0, 4] ++ [1, 2, 3, 4] ++ [255, 248]

/-- Resolve one bound of a Python slice `s[a:b]` for a sequence of the
given length: a negative index counts from the end (clamped at 0), a
non-negative one is clamped at the length. -/
def pyIdx (len : Nat) (i : Int) : Nat :=
  if i < 0 then (i + len).toNat else min i.toNat len

/-- Python slice `l[a:b]` with full negative-index and clamping
semantics. -/
def pyslice {α : Type} (l : List α) (a b : Int) : List α :=
  (l.take (pyIdx l.length b)).drop (pyIdx l.length a)

/-- Plain slice `l[a:b]` for non-negative bounds, as used in the
specification text. -/
def sl {α : Type} (l : List α) (a b : Nat) : List α :=
  (l.take b).drop a

/-- The projected collection-item record the composer reads and
writes (`item.title` / `item.album` / `item.artist` / `item.genre`). -/
structure TagRec where
  title : String
  album : String
  artist : String
  genre : String
deriving DecidableEq

/-- The state of one `FileHandler` object.  `header = none` models the
`self.header` attribute never having been assigned (as in the mp3
branch of `__init__`); `stored` records the last item written through
`lib.store`. -/
structure FHState where
  header : Option (List Nat)
  bound : Nat
  musicOffset : Nat
  music : List Nat
  format : String
  item : TagRec
  stored : Option TagRec
  instanceCount : Nat
deriving DecidableEq

/-- `FileHandler.__init__`, after the item/path lookup, as a function of
the lower-cased extension, the on-disk file bytes and the item record.
For `"flac"` the source decodes the file, copies the library tag values
into the decoded object and re-encodes (this path always raises, since
`flacLoad` always fails — see `flacLoad_errors`); for `"mp3"`
interpolation is disabled (`bound = 0`, `music_offset = 0`) but
`self.header` is never assigned; for any other extension neither
branch runs and the subsequent `self.file_object.seek(self.music_offset)`
raises `AttributeError`. -/
def FileHandler.init (format : String) (fileBytes : List Nat) (item : TagRec) :
    Except PyErr FHState :=
  if format = "flac" then
    match flacLoad fileBytes with
    | Except.error e => Except.error e
    | Except.ok inf =>
      -- Unreachable: flacLoad never succeeds.  The tag copies
      -- (`self.inf["title"] = self.item.title`, ...) mutate the decoded
      -- object only; then the header is re-encoded.
      match get_header inf.blocks fileBytes with
      | Except.error e => Except.error e
      | Except.ok hr =>
        Except.ok { header := some hr.1, bound := hr.1.length, musicOffset := hr.2,
                    music := fileBytes.drop hr.2, format := format, item := item,
                    stored := none, instanceCount := 1 }
  else if format = "mp3" then
    Except.ok { header := none, bound := 0, musicOffset := 0,
                music := fileBytes.drop 0, format := format, item := item,
                stored := none, instanceCount := 1 }
  else
    Except.error PyErr.attributeError

/-- `FileHandler.read`.  Both arms of the boundary test evaluate
`len(self.header)`, so a state whose `self.header` was never assigned
raises `AttributeError`.  Slices are Python slices on the in-memory
header and music data. -/
def FileHandler.read (s : FHState) (size offset : Nat) : Except PyErr (List Nat) :=
  if offset < s.bound then
    match s.header with
    | none => Except.error PyErr.attributeError
    | some h =>
      if offset + size < h.length then
        Except.ok (pyslice h (offset : Int) ((offset : Int) + (size : Int)))
      else
        Except.ok (pyslice h (offset : Int) (h.length : Int)
          ++ pyslice s.music 0 ((size : Int) - ((h.length : Int) - (offset : Int))))
  else
    match s.header with
    | none => Except.error PyErr.attributeError
    | some h =>
      Except.ok (pyslice s.music ((offset : Int) - (h.length : Int))
        ((offset : Int) - (h.length : Int) + (size : Int)))

/-- Lookup `tags[key][0]` on a decoded vorbis-comment dictionary:
`KeyError` when the key is absent, `IndexError` when the value list is
empty. -/
def vcget (tg : List (String × List String)) (k : String) : Except PyErr String :=
  match tg.lookup k with
  | none => Except.error (PyErr.keyError k)
  | some [] => Except.error PyErr.indexError
  | some (v :: _) => Except.ok v

/-- The `try:` block of `FileHandler.write` for the flac format: decode
the patched data, extract title/album/artist/genre into the item,
store/save the item, then re-encode the header and boundary.  The
result carries the exception (if any), the final object state (object
attribute mutations persist past an exception), and the returned
value.  Only the first step is ever reached: `flacLoad` always fails
(see `flacLoad_errors`), before any state is mutated. -/
def writeFlacTry (s : FHState) (fd2 : List Nat) (buflen : Nat) :
    Option PyErr × FHState × Option Nat :=
  match flacLoad fd2 with
  | Except.error e => (some e, s, none)
  | Except.ok inf =>
    -- Unreachable continuation, kept faithful to the source's order.
    match inf.tags with
    | none => (some PyErr.typeError, s, none)   -- self.tags is None
    | some tg =>
      match vcget tg "title" with
      | Except.error e => (some e, s, none)
      | Except.ok tv =>
        let s1 := { s with item := { s.item with title := tv } }
        match vcget tg "album" with
        | Except.error e => (some e, s1, none)
        | Except.ok av =>
          let s2 := { s1 with item := { s1.item with album := av } }
          match vcget tg "artist" with
          | Except.error e => (some e, s2, none)
          | Except.ok rv =>
            let s3 := { s2 with item := { s2.item with artist := rv } }
            match vcget tg "genre" with
            | Except.error e => (some e, s3, none)
            | Except.ok gv =>
              let s4 := { s3 with item := { s3.item with genre := gv } }
              let s5 := { s4 with stored := some s4.item }   -- lib.store; lib.save
              match get_header inf.blocks fd2 with
              | Except.error e => (some e, s5, none)
              | Except.ok hr =>
                let s6 := { s5 with header := some hr.1, bound := hr.1.length, musicOffset := hr.2 }
                (none, s6, some buflen)

/-- `FileHandler.write`.  A write at `offset >= self.bound` falls
through every branch and returns `None` (the source's comment: "if not,
discard write").  Inside the header region the patched stream is
re-decoded; only `IOError` (mutagen's FLAC errors) is caught, any other
exception propagates.  A non-flac format also falls through to `None`. -/
def FileHandler.write (s : FHState) (offset : Nat) (buf : List Nat) :
    Option PyErr × FHState × Option Nat :=
  if offset < s.bound then
    match s.header with
    | none => (some PyErr.attributeError, s, none)
    | some h =>
      let fd := h ++ s.music
      let fd2 := fd.take offset ++ buf ++ fd.drop (offset + buf.length)
      if s.format = "flac" then
        match writeFlacTry s fd2 buf.length with
        | (some e, s2, r) =>
          if isIOError e then (none, s2, none) else (some e, s2, r)
        | (none, s2, r) => (none, s2, r)
      else (none, s, none)
  else (none, s, none)

/-- A demo item record. -/
def tagDemo : TagRec :=
  { title := "T", album := "B", artist := "A", genre := "G" }

/-- A demo open flac virtual-file state, with a 5-byte header
(beginning with the magic) and 2 bytes of music data. -/
def sDemo : FHState :=
  { header := some [102, 76, 97, 67, 0], bound := 5, musicOffset := 5,
    music := [9, 9], format := "flac", item := tagDemo,
    stored := none, instanceCount := 1 }

/-- The state of a freshly opened flac virtual file as claimed by the
specification: synthesized header bytes `h`, payload `mus`, and
boundary equal to the header length. -/
def flacState (h mus : List Nat) (it : TagRec) : FHState :=
  { header := some h, bound := h.length, musicOffset := 0, music := mus,
    format := "flac", item := it, stored := none, instanceCount := 1 }

/-- A directory node: directories keyed by name, files keyed by name
to a collection-item identifier.  Python dictionaries are modelled as
association lists with unique first-match lookup. -/
inductive FSNode where
  | mk : List (String × FSNode) → List (String × Nat) → FSNode

def FSNode.dirs : FSNode → List (String × FSNode)
  | FSNode.mk d _ => d

def FSNode.files : FSNode → List (String × Nat)
  | FSNode.mk _ f => f

/-- First-match dictionary lookup `d[k]` (`none` models `KeyError`). -/
def alookup {α : Type} (k : String) : List (String × α) → Option α
  | [] => none
  | p :: rest => if p.1 = k then some p.2 else alookup k rest

/-- Dictionary assignment `d[k] = v`: overwrite the first entry with
key `k`, or append a fresh entry. -/
def aset {α : Type} (k : String) (v : α) : List (String × α) → List (String × α)
  | [] => [(k, v)]
  | p :: rest => if p.1 = k then (k, v) :: rest else p :: aset k v rest

/-- The node `FSNode.getnode` returns (pure navigation, without the
list mutation). -/
def FSNode.getnodeNav : List String → FSNode → Option FSNode
  | [], n => some n
  | d :: rest, n =>
    match alookup d n.dirs with
    | none => none
    | some child => FSNode.getnodeNav rest child

/-- The state of the caller's element list after an `FSNode.getnode`
call: `getnode` pops the head before each dictionary lookup, so a
`KeyError` at depth `k` leaves the tail beyond `k`, and a normal
return leaves the empty list. -/
def FSNode.getnodeRest : List String → FSNode → List String
  | [], _ => []
  | d :: rest, n =>
    match alookup d n.dirs with
    | none => rest
    | some child => FSNode.getnodeRest rest child

/-- `FSNode.getnode` with its side effect on the caller's list: the
returned node (`none` models the `KeyError` escaping) paired with the
state the caller's list object has after the call. -/
def FSNode.getnodeSt (l : List String) (n : FSNode) : Option FSNode × List String :=
  (FSNode.getnodeNav l n, FSNode.getnodeRest l n)

/-- Apply `f` to the node addressed by `path`, rebuilding the tree:
this is the functional rendering of "getnode, then mutate the returned
node in place".  Fails exactly where `getnode` raises `KeyError`. -/
def updateAt (f : FSNode → FSNode) : List String → FSNode → Option FSNode
  | [], n => some (f n)
  | d :: rest, n =>
    match alookup d n.dirs with
    | none => none
    | some child =>
      match updateAt f rest child with
      | none => none
      | some child2 => some (FSNode.mk (aset d child2 n.dirs) n.files)

/-- The body of `adddir`: create the named subdirectory if absent. -/
def ensureDir (d : String) (n : FSNode) : FSNode :=
  if (alookup d n.dirs).isSome then n
  else FSNode.mk (n.dirs ++ [(d, FSNode.mk [] [])]) n.files

/-- The body of `addfile`: `node.files[filename] = id`, overwriting. -/
def setFile (fn : String) (i : Nat) (n : FSNode) : FSNode :=
  FSNode.mk n.dirs (aset fn i n.files)

/-- The normalization `if len(elements) == 1 and elements[0] == '':
elements = []` shared by `adddir`/`addfile`/`listdir`.  It rebinds the
local name to a fresh list, so in that case the caller's list object
is left untouched. -/
def normElems (l : List String) : List String :=
  if l = [""] then [] else l

/-- `FSNode.adddir` with its side effect: the updated tree (`none`
models a `KeyError` escaping from `getnode`) and the state of the
caller's element list afterwards. -/
def FSNode.adddir (root : FSNode) (elements : List String) (d : String) :
    Option FSNode × List String :=
  (updateAt (ensureDir d) (normElems elements) root,
   if elements = [""] then elements else FSNode.getnodeRest elements root)

/-- `FSNode.addfile` with its side effect, analogous to `adddir`. -/
def FSNode.addfile (root : FSNode) (elements : List String) (fn : String) (i : Nat) :
    Option FSNode × List String :=
  (updateAt (setFile fn i) (normElems elements) root,
   if elements = [""] then elements else FSNode.getnodeRest elements root)

/-- `level_subbed[i]` (the substituted segment of level `i`). -/
def getLevel (segs : List String) (i : Nat) : String :=
  (segs.get? i).getD ""

/-- The per-item directory loop of `mount`:
`for level in range(0, structure_depth - 1)`, appending
`level_subbed[level - 1]` for `level >= 1` and calling `adddir`; the
list state threads the pop side effect of each `adddir` call. -/
def mountLoop (segs : List String) :
    List Nat → FSNode → List String → Option (FSNode × List String)
  | [], t, sub => some (t, sub)
  | level :: rest, t, sub =>
    let sub2 := if level = 0 then sub else sub ++ [getLevel segs (level - 1)]
    match FSNode.adddir t sub2 (getLevel segs level) with
    | (none, _) => none
    | (some t2, subAfter) => mountLoop segs rest t2 subAfter

/-- One item's insertion into the directory structure, as performed by
`mount`: the directory loop, then the two appends
`level_subbed[structure_depth - 3]` and `level_subbed[structure_depth - 2]`
(which raise `KeyError` when the depth is below 3, since negative
integers are not keys of `level_subbed`), then `addfile`.  `none`
models any escaping exception. -/
def insertItem (t : FSNode) (segs : List String) (i : Nat) : Option FSNode :=
  match mountLoop segs (List.range (segs.length - 1)) t [] with
  | none => none
  | some (t2, sub) =>
    if segs.length < 3 then none
    else
      let sub2 := sub ++ [getLevel segs (segs.length - 3), getLevel segs (segs.length - 2)]
      (FSNode.addfile t2 sub2 (getLevel segs (segs.length - 1)) i).1

/-- The character substitution of `template_mapping`:
`re.sub(r'[\\/:]|^\.', '_', value)` — every backslash, slash and colon,
plus a dot at position 0, becomes an underscore. -/
def sanitizeChars : List Char → List Char :=
  List.map fun c => if c = '\\' ∨ c = '/' ∨ c = ':' then '_' else c

/-- `re.sub` applied to a string value. -/
def sanitize (s : String) : String :=
  match s.data with
  | [] => ""
  | c :: rest =>
    if c = '.' then String.mk ('_' :: sanitizeChars rest)
    else String.mk (sanitizeChars (c :: rest))

/-- `'%02i' % n`: zero-pad a non-negative single digit to width 2;
everything else renders as its decimal form. -/
def pad2 (n : Int) : String :=
  if 0 ≤ n ∧ n < 10 then "0" ++ toString n else toString n

/-- Python 2 `str` of a boolean. -/
def pystrBool (b : Bool) : String :=
  if b then "True" else "False"

/-- One collection item as `template_mapping` consumes it: the text and
integer metadata fields, plus the real file path's extension
(`os.path.splitext(item.path)[1][1:]`).  The real-valued `length`
field's `str()` rendering involves floating point and is not modelled;
no claim concerns it. -/
structure Item where
  title : String
  artist : String
  album : String
  genre : String
  composer : String
  grouping : String
  lyrics : String
  comments : String
  year : Int
  month : Int
  day : Int
  track : Int
  tracktotal : Int
  disc : Int
  disctotal : Int
  bpm : Int
  bitrate : Int
  comp : Bool
  ext : String
deriving DecidableEq

/-- The substitution map `template_mapping` builds, one rendered string
per metadata key plus the two format keys. -/
structure TplMapping where
  title : String
  artist : String
  album : String
  genre : String
  composer : String
  grouping : String
  lyrics : String
  comments : String
  year : String
  month : String
  day : String
  track : String
  tracktotal : String
  disc : String
  disctotal : String
  bpm : String
  bitrate : String
  comp : String
  format : String
  format_upper : String
deriving DecidableEq

/-- The `# fix dud entries` block of `template_mapping`: the four
fallbacks in source order (artist, album, year, title). -/
def fixDud (m : TplMapping) : TplMapping :=
  let m := if m.artist = "" then { m with artist := "Unknown Artist" } else m
  let m := if m.album = "" then { m with album := "Unknown Album" } else m
  let m := if m.year = "0" then { m with year := "Unknown Year" } else m
  let m := if m.title = "" then { m with title := "Unknown Track" } else m
  m

/-- `template_mapping`: sanitize text fields, zero-pad the four
position fields, render the rest via `str`; derive `format` /
`format_upper` from the extension; then apply the four "dud entry"
fallbacks (`fixDud`).  The `value.replace(os.sep, '_')` line of the
source discards its result and has no effect. -/
def template_mapping (item : Item) : TplMapping :=
  fixDud
    { title := sanitize item.title
      artist := sanitize item.artist
      album := sanitize item.album
      genre := sanitize item.genre
      composer := sanitize item.composer
      grouping := sanitize item.grouping
      lyrics := sanitize item.lyrics
      comments := sanitize item.comments
      year := toString item.year
      month := toString item.month
      day := toString item.day
      track := pad2 item.track
      tracktotal := pad2 item.tracktotal
      disc := pad2 item.disc
      disctotal := pad2 item.disctotal
      bpm := toString item.bpm
      bitrate := toString item.bitrate
      comp := pystrBool item.comp
      format := sanitize item.ext
      format_upper := (sanitize item.ext).toUpper }

/-- A demo collection item exercising sanitization, padding and the
fallbacks. -/
def itemDemo : Item :=
  { title := "", artist := "a/b", album := "x", genre := ".g", composer := "c:d",
    grouping := "", lyrics := "l", comments := "", year := 0, month := 1, day := 2,
    track := 3, tracktotal := 12, disc := 1, disctotal := 1, bpm := 0, bitrate := 128,
    comp := false, ext := "flac" }

/-! Helper lemmas. -/

theorem readMetadataBlock_errors (s : BStream) :
    ∃ e, readMetadataBlock s = Except.error e := by
  unfold readMetadataBlock
  split
  · exact ⟨_, rfl⟩
  · dsimp only
    split
    · exact ⟨_, rfl⟩
    · exact ⟨_, rfl⟩

theorem loadLoop_errors (fuel : Nat) (s : BStream) :
    ∃ e, loadLoop fuel s = Except.error e := by
  cases fuel with
  | zero => exact ⟨_, rfl⟩
  | succ n =>
    obtain ⟨e, he⟩ := readMetadataBlock_errors s
    exact ⟨e, by simp [loadLoop, he]⟩

theorem flacLoad_errors (fd : List Nat) : ∃ e, flacLoad fd = Except.error e := by
  cases hc : checkHeader { data := fd, pos := 0 } with
  | error e => exact ⟨e, by simp [flacLoad, hc]⟩
  | ok s1 =>
    obtain ⟨e, he⟩ := loadLoop_errors (fd.length + 1) s1
    exact ⟨e, by simp [flacLoad, hc, he]⟩

theorem pyslice_coe {α : Type} (l : List α) (a b : Nat) :
    pyslice l (a : Int) (b : Int) = sl l a b := by
  have hIdx : ∀ n : Nat, pyIdx l.length (n : Int) = min n l.length := by
    intro n
    unfold pyIdx
    rw [if_neg (by omega)]
    simp
  unfold pyslice sl
  rw [hIdx, hIdx]
  have htake : l.take (min b l.length) = l.take b := by
    rcases le_total b l.length with h | h
    · rw [min_eq_left h]
    · rw [min_eq_right h, List.take_length, List.take_of_length_le h]
  rw [htake]
  rcases le_total a l.length with h | h
  · rw [min_eq_left h]
  · rw [min_eq_right h]
    have h1 : (l.take b).length ≤ l.length := by
      simp [List.length_take]
    rw [List.drop_eq_nil_of_le h1, List.drop_eq_nil_of_le (h1.trans h)]

theorem pyslice_zero_coe {α : Type} (l : List α) (b : Nat) :
    pyslice l 0 (b : Int) = sl l 0 b :=
  pyslice_coe l 0 b

/-- Unfolding of `FileHandler.read` on a freshly opened flac state. -/
theorem read_eq (h mus : List Nat) (it : TagRec) (size offset : Nat) :
    FileHandler.read (flacState h mus it) size offset =
      if offset < h.length then
        if offset + size < h.length then
          Except.ok (pyslice h (offset : Int) ((offset : Int) + (size : Int)))
        else
          Except.ok (pyslice h (offset : Int) (h.length : Int)
            ++ pyslice mus 0 ((size : Int) - ((h.length : Int) - (offset : Int))))
      else
        Except.ok (pyslice mus ((offset : Int) - (h.length : Int))
          ((offset : Int) - (h.length : Int) + (size : Int))) := rfl

theorem sanitize_data_length (s : String) :
    (sanitize s).data.length = s.data.length := by
  obtain ⟨data⟩ := s
  cases data with
  | nil => rfl
  | cons c rest =>
    simp only [sanitize]
    split <;> simp [sanitizeChars]

theorem sanitize_eq_empty_iff (s : String) : sanitize s = "" ↔ s = "" := by
  constructor
  · intro h
    have hl : s.data.length = 0 := by
      rw [← sanitize_data_length, h]
      rfl
    exact String.ext (List.length_eq_zero.mp hl)
  · intro h
    rw [h]
    rfl

theorem alookup_aset_self {α : Type} (k : String) (v : α) (l : List (String × α)) :
    alookup k (aset k v l) = some v := by
  induction l with
  | nil => simp [aset, alookup]
  | cons p rest ih =>
    by_cases hp : p.1 = k
    · simp [aset, hp, alookup]
    · simp [aset, hp, alookup, ih]

theorem alookup_append_of_none {α : Type} (k : String) (v : α) (l : List (String × α))
    (h : alookup k l = none) : alookup k (l ++ [(k, v)]) = some v := by
  induction l with
  | nil => simp [alookup]
  | cons p rest ih =>
    by_cases hp : p.1 = k
    · simp [alookup, hp] at h
    · simp only [alookup, hp, if_neg hp, List.cons_append] at h ⊢
      exact ih h

theorem ensureDir_lookup (d : String) (n : FSNode) :
    ∃ c, alookup d (ensureDir d n).dirs = some c := by
  unfold ensureDir
  by_cases h : (alookup d n.dirs).isSome
  · rw [if_pos h]
    exact Option.isSome_iff_exists.mp h
  · rw [if_neg h]
    refine ⟨FSNode.mk [] [], ?_⟩
    have hn : alookup d n.dirs = none := Option.not_isSome_iff_eq_none.mp h
    exact alookup_append_of_none d _ n.dirs hn

theorem getnodeNav_some_rest (l : List String) (r n : FSNode)
    (h : FSNode.getnodeNav l r = some n) : FSNode.getnodeRest l r = [] := by
  induction l generalizing r with
  | nil => rfl
  | cons d rest ih =>
    simp only [FSNode.getnodeNav, FSNode.getnodeRest] at h ⊢
    cases hd : alookup d r.dirs with
    | none => rw [hd] at h; cases h
    | some child =>
      rw [hd] at h
      exact ih child h

theorem updateAt_some_nav (f : FSNode → FSNode) (l : List String) (r t : FSNode)
    (h : updateAt f l r = some t) : ∃ n, FSNode.getnodeNav l r = some n := by
  induction l generalizing r t with
  | nil => exact ⟨r, rfl⟩
  | cons d rest ih =>
    simp only [updateAt, FSNode.getnodeNav] at h ⊢
    cases hd : alookup d r.dirs with
    | none => rw [hd] at h; cases h
    | some child =>
      rw [hd] at h
      replace h : (match updateAt f rest child with
        | none => none
        | some child2 => some (FSNode.mk (aset d child2 r.dirs) r.files)) = some t := h
      cases hu : updateAt f rest child with
      | none => rw [hu] at h; cases h
      | some c2 => exact ih child c2 hu

theorem FSNode.dirs_mk (d : List (String × FSNode)) (f : List (String × Nat)) :
    (FSNode.mk d f).dirs = d := rfl

theorem FSNode.files_mk (d : List (String × FSNode)) (f : List (String × Nat)) :
    (FSNode.mk d f).files = f := rfl

theorem fixDud_untouched (m : TplMapping) :
    (fixDud m).genre = m.genre ∧ (fixDud m).composer = m.composer ∧
    (fixDud m).grouping = m.grouping ∧ (fixDud m).lyrics = m.lyrics ∧
    (fixDud m).comments = m.comments ∧ (fixDud m).track = m.track ∧
    (fixDud m).tracktotal = m.tracktotal ∧ (fixDud m).disc = m.disc ∧
    (fixDud m).disctotal = m.disctotal := by
  unfold fixDud
  dsimp only
  split_ifs <;> exact ⟨rfl, rfl, rfl, rfl, rfl, rfl, rfl, rfl, rfl⟩

theorem fixDud_artist_empty (m : TplMapping) (h : m.artist = "") :
    (fixDud m).artist = "Unknown Artist" := by
  unfold fixDud
  dsimp only
  rw [if_pos h]
  split_ifs <;> rfl

theorem fixDud_artist_keep (m : TplMapping) (h : ¬ m.artist = "") :
    (fixDud m).artist = m.artist := by
  unfold fixDud
  dsimp only
  rw [if_neg h]
  split_ifs <;> rfl

theorem fixDud_album_empty (m : TplMapping) (h : m.album = "") :
    (fixDud m).album = "Unknown Album" := by
  unfold fixDud
  dsimp only
  split_ifs <;> simp_all

theorem fixDud_album_keep (m : TplMapping) (h : ¬ m.album = "") :
    (fixDud m).album = m.album := by
  unfold fixDud
  dsimp only
  split_ifs <;> simp_all

theorem fixDud_title_empty (m : TplMapping) (h : m.title = "") :
    (fixDud m).title = "Unknown Track" := by
  unfold fixDud
  dsimp only
  split_ifs <;> simp_all

theorem fixDud_title_keep (m : TplMapping) (h : ¬ m.title = "") :
    (fixDud m).title = m.title := by
  unfold fixDud
  dsimp only
  split_ifs <;> simp_all

theorem fixDud_year_zero (m : TplMapping) (h : m.year = "0") :
    (fixDud m).year = "Unknown Year" := by
  unfold fixDud
  dsimp only
  split_ifs <;> simp_all

theorem writeFlacTry_load_error (s : FHState) (fd2 : List Nat) (buflen : Nat) (e : PyErr)
    (he : flacLoad fd2 = Except.error e) :
    writeFlacTry s fd2 buflen = (some e, s, none) := by
  unfold writeFlacTry
  rw [he]

theorem write_flac_cases (s : FHState) (offset : Nat) (buf : List Nat)
    (hoff : offset < s.bound) (hfmt : s.format = "flac") :
    ∃ e, FileHandler.write s offset buf =
      (if isIOError e then (none, s, none) else (some e, s, none)) := by
  unfold FileHandler.write
  rw [if_pos hoff]
  cases hh : s.header with
  | none => exact ⟨PyErr.attributeError, rfl⟩
  | some h =>
    dsimp only
    rw [if_pos hfmt]
    obtain ⟨e0, he0⟩ := flacLoad_errors
      ((h ++ s.music).take offset ++ buf ++ (h ++ s.music).drop (offset + buf.length))
    refine ⟨e0, ?_⟩
    rw [writeFlacTry_load_error s _ buf.length e0 he0]

/-! Claim theorems. -/

/-- Claim C2 (code-bug evidence): the Format A encode step never
produces a header at all, let alone one of the target length: because
`__check_header`'s `return size` is dead code the available-size
subtraction raises `TypeError` on every call, and the concrete
evaluation shows it on a well-formed stream. -/
theorem get_header_never_succeeds :
    (∀ (blocks : List MBlock) (fd : List Nat), ∃ e, get_header blocks fd = Except.error e) ∧
    get_header [MBlock.raw 0 [1, 2, 3, 4]] demoFlacBytes = Except.error PyErr.typeError := by
  constructor
  · intro blocks fd
    cases hc : checkHeader { data := fd, pos := 0 } with
    | error e => exact ⟨e, by simp [get_header, hc]⟩
    | ok s1 =>
      cases hf : findAudioOffset (fd.length + 1) s1 with
      | error e => exact ⟨e, by simp [get_header, hc, hf]⟩
      | ok off => exact ⟨PyErr.typeError, by simp [get_header, hc, hf]⟩
  · rfl

/-- Claim C6 (code-bug evidence): the decoder never classifies any
block: `__read_metadata_block` raises on every call (the
classification line is dead code after a `raise`, leaving `block`
unassigned), so `load` fails with `UnboundLocalError` even on the
minimal well-formed stream. -/
theorem decode_always_raises :
    (∀ s : BStream, ∃ e, readMetadataBlock s = Except.error e) ∧
    flacLoad demoFlacBytes = Except.error PyErr.unboundLocal :=
  ⟨readMetadataBlock_errors, rfl⟩

/-- Claim C5 (counterexample): a write at `offset = bound` is not
rejected with any error: it returns Python `None` with the state
unchanged — a silent discard. -/
theorem write_beyond_bound_not_rejected :
    FileHandler.write sDemo 5 [1] = (none, sDemo, none) := rfl

/-- Claim C5 (amended): every write at `offset ≥ bound` is silently
discarded: no exception is raised, the state is unchanged, and the
call returns `None` instead of a byte count. -/
theorem write_beyond_bound_discards (s : FHState) (offset : Nat) (buf : List Nat)
    (h : s.bound ≤ offset) :
    FileHandler.write s offset buf = (none, s, none) := by
  unfold FileHandler.write
  rw [if_neg (by omega)]

theorem write_beyond_bound_discards_w :
    FileHandler.write sDemo 7 [1, 2] = (none, sDemo, none) :=
  write_beyond_bound_discards sDemo 7 [1, 2] (by decide)

/-- Claim C10: `FileHandler.__init__` completes only for the
extensions `flac` and `mp3`; for any other extension no branch assigns
`music_offset`, so the constructor raises `AttributeError` before
finishing and no open-file state is created. -/
theorem init_requires_known_format (format : String) (f : List Nat) (it : TagRec) :
    (∀ s, FileHandler.init format f it = Except.ok s → format = "flac" ∨ format = "mp3") ∧
    (format ≠ "flac" → format ≠ "mp3" →
      FileHandler.init format f it = Except.error PyErr.attributeError) := by
  constructor
  · intro s hs
    by_cases h1 : format = "flac"
    · exact Or.inl h1
    · by_cases h2 : format = "mp3"
      · exact Or.inr h2
      · unfold FileHandler.init at hs
        rw [if_neg h1, if_neg h2] at hs
        cases hs
  · intro h1 h2
    unfold FileHandler.init
    rw [if_neg h1, if_neg h2]

theorem init_requires_known_format_w :
    ("mp3" = "flac" ∨ "mp3" = "mp3") ∧
    FileHandler.init "txt" [] tagDemo = Except.error PyErr.attributeError := by
  constructor
  · exact (init_requires_known_format "mp3" [] tagDemo).1
      { header := none, bound := 0, musicOffset := 0, music := [],
        format := "mp3", item := tagDemo, stored := none, instanceCount := 1 } (by decide)
  · exact (init_requires_known_format "txt" [] tagDemo).2 (by decide) (by decide)

/-- Claim C8 (code-bug evidence): an mp3 virtual file opens with
boundary 0, but every read raises `AttributeError` instead of passing
the raw bytes through, because the mp3 branch of `__init__` never
assigns `self.header` and `read` evaluates `len(self.header)` on both
sides of the boundary test. -/
theorem mp3_read_raises (f : List Nat) (it : TagRec) (size offset : Nat) :
    ∃ s, FileHandler.init "mp3" f it = Except.ok s ∧ s.bound = 0 ∧ s.header = none ∧
      s.music = f ∧ FileHandler.read s size offset = Except.error PyErr.attributeError := by
  refine ⟨{ header := none, bound := 0, musicOffset := 0, music := f.drop 0,
            format := "mp3", item := it, stored := none, instanceCount := 1 },
          ?_, rfl, rfl, ?_, ?_⟩
  · unfold FileHandler.init
    rw [if_neg (by decide), if_pos rfl]
  · exact List.drop_zero f
  · unfold FileHandler.read
    rw [if_neg (by simp)]

/-- Claim C4: a header-region write that fails (every decode attempt
fails in this source) leaves the whole `FileHandler` state — header
bytes, boundary, and the collection record — exactly as before the
call, and any write that does return a byte count returns `len(buf)`. -/
theorem write_header_failure_atomic (s : FHState) (offset : Nat) (buf : List Nat)
    (hoff : offset < s.bound) (hfmt : s.format = "flac") :
    (∀ e s2 r, FileHandler.write s offset buf = (some e, s2, r) → s2 = s ∧ r = none) ∧
    (∀ s2 n, FileHandler.write s offset buf = (none, s2, some n) → n = buf.length) := by
  obtain ⟨e0, he0⟩ := write_flac_cases s offset buf hoff hfmt
  cases hb : isIOError e0 with
  | false =>
    rw [hb] at he0
    simp only [Bool.false_eq_true, if_false] at he0
    constructor
    · intro e s2 r hw
      rw [he0] at hw
      simp only [Prod.mk.injEq] at hw
      exact ⟨hw.2.1.symm, hw.2.2.symm⟩
    · intro s2 n hw
      rw [he0] at hw
      simp at hw
  | true =>
    rw [hb] at he0
    simp only [if_true] at he0
    constructor
    · intro e s2 r hw
      rw [he0] at hw
      simp at hw
    · intro s2 n hw
      rw [he0] at hw
      simp at hw

theorem write_header_failure_atomic_w :
    (0 : Nat) < sDemo.bound ∧ sDemo = sDemo ∧ (none : Option Nat) = none := by
  have h := write_header_failure_atomic sDemo 0 [9] (by decide) rfl
  have h2 := h.1 PyErr.attributeError sDemo none (by decide)
  exact ⟨by decide, h2.1, h2.2⟩

/-- Claim C1: on a flac virtual-file state with boundary equal to the
header length, `read` returns exactly the specified slice in each of
the three regimes — inside the header, across the boundary seam, and
inside the payload — with no byte duplicated or dropped. -/
theorem read_boundary_cases (h mus : List Nat) (it : TagRec) (size offset : Nat) :
    (offset + size ≤ h.length →
      FileHandler.read (flacState h mus it) size offset =
        Except.ok (sl h offset (offset + size))) ∧
    (offset < h.length → h.length < offset + size →
      FileHandler.read (flacState h mus it) size offset =
        Except.ok (sl h offset h.length ++ sl mus 0 (size - (h.length - offset)))) ∧
    (h.length ≤ offset →
      FileHandler.read (flacState h mus it) size offset =
        Except.ok (sl mus (offset - h.length) (offset - h.length + size))) := by
  refine ⟨?_, ?_, ?_⟩
  · intro hle
    rw [read_eq]
    by_cases hlt : offset + size < h.length
    · rw [if_pos (by omega), if_pos hlt]
      have e1 : (offset : Int) + (size : Int) = ((offset + size : Nat) : Int) := by push_cast; ring
      rw [e1, pyslice_coe]
    · by_cases hoff : offset < h.length
      · rw [if_pos hoff, if_neg hlt]
        have heq : offset + size = h.length := by omega
        have e1 : ((size : Int) - ((h.length : Int) - (offset : Int))) = ((0 : Nat) : Int) := by
          omega
        rw [e1, pyslice_zero_coe, pyslice_coe, heq]
        simp [sl]
      · rw [if_neg hoff]
        have h1 : offset = h.length := by omega
        have h2 : size = 0 := by omega
        subst h2
        have e2 : ((offset : Int) - (h.length : Int) + ((0 : Nat) : Int)) = ((0 : Nat) : Int) := by
          omega
        have e1 : ((offset : Int) - (h.length : Int)) = ((0 : Nat) : Int) := by omega
        rw [e2, e1, pyslice_coe]
        simp [sl, h1]
  · intro hin hout
    rw [read_eq, if_pos hin, if_neg (by omega)]
    have e1 : ((size : Int) - ((h.length : Int) - (offset : Int)))
        = ((size - (h.length - offset) : Nat) : Int) := by omega
    rw [e1, pyslice_zero_coe, pyslice_coe]
  · intro hle
    rw [read_eq, if_neg (by omega)]
    have e2 : ((offset : Int) - (h.length : Int) + (size : Int))
        = ((offset - h.length + size : Nat) : Int) := by omega
    have e1 : ((offset : Int) - (h.length : Int)) = ((offset - h.length : Nat) : Int) := by
      omega
    rw [e2, e1, pyslice_coe]

theorem read_boundary_cases_w :
    FileHandler.read (flacState [0, 1, 2, 3] [7, 8] tagDemo) 2 1 = Except.ok [1, 2] ∧
    FileHandler.read (flacState [0, 1, 2, 3] [7, 8] tagDemo) 4 2 = Except.ok [2, 3, 7, 8] ∧
    FileHandler.read (flacState [0, 1, 2, 3] [7, 8] tagDemo) 2 5 = Except.ok [8] := by
  have h1 := (read_boundary_cases [0, 1, 2, 3] [7, 8] tagDemo 2 1).1 (by decide)
  have h2 := (read_boundary_cases [0, 1, 2, 3] [7, 8] tagDemo 4 2).2.1 (by decide) (by decide)
  have h3 := (read_boundary_cases [0, 1, 2, 3] [7, 8] tagDemo 2 5).2.2 (by decide)
  exact ⟨h1.trans (by decide), h2.trans (by decide), h3.trans (by decide)⟩

/-- Claim C9 (counterexample): `adddir` called on the singleton list
`[""]` does not empty the list it is given — the normalization rebinds
a fresh local list, so the caller's list still holds one element
afterwards. -/
theorem adddir_keeps_empty_string_singleton :
    (FSNode.adddir (FSNode.mk [] []) [""] "d").2 = [""] ∧
    ((FSNode.adddir (FSNode.mk [] []) [""] "d").2).length = 1 := ⟨rfl, rfl⟩

/-- Claim C9 (amended): `getnode` pops every segment, so on any normal
return the caller's list is empty; consequently `adddir` and `addfile`
leave the list they are given empty on any normal return, except for
the singleton `[""]`, which the normalization rebinds and leaves
untouched. -/
theorem getnode_list_consumption (r : FSNode) (l : List String) :
    (∀ n, (FSNode.getnodeSt l r).1 = some n → (FSNode.getnodeSt l r).2 = []) ∧
    (∀ d t, (FSNode.adddir r l d).1 = some t →
      (FSNode.adddir r l d).2 = if l = [""] then [""] else []) ∧
    (∀ fn i t, (FSNode.addfile r l fn i).1 = some t →
      (FSNode.addfile r l fn i).2 = if l = [""] then [""] else []) := by
  refine ⟨?_, ?_, ?_⟩
  · intro n hn
    exact getnodeNav_some_rest l r n hn
  · intro d t ht
    unfold FSNode.adddir at ht ⊢
    by_cases hl : l = [""]
    · rw [if_pos hl, if_pos hl, hl]
    · rw [if_neg hl] at ht ⊢
      rw [if_neg hl]
      unfold normElems at ht
      rw [if_neg hl] at ht
      obtain ⟨n, hn⟩ := updateAt_some_nav _ l r t ht
      exact getnodeNav_some_rest l r n hn
  · intro fn i t ht
    unfold FSNode.addfile at ht ⊢
    by_cases hl : l = [""]
    · rw [if_pos hl, if_pos hl, hl]
    · rw [if_neg hl] at ht ⊢
      rw [if_neg hl]
      unfold normElems at ht
      rw [if_neg hl] at ht
      obtain ⟨n, hn⟩ := updateAt_some_nav _ l r t ht
      exact getnodeNav_some_rest l r n hn

theorem getnode_list_consumption_w :
    (FSNode.getnodeSt ["x"] (FSNode.mk [("x", FSNode.mk [] [])] [])).2 = [] ∧
    (FSNode.adddir (FSNode.mk [("x", FSNode.mk [] [])] []) ["x"] "d").2 = [] := by
  have h := getnode_list_consumption (FSNode.mk [("x", FSNode.mk [] [])] []) ["x"]
  constructor
  · exact h.1 (FSNode.mk [] []) rfl
  · exact (h.2.1 "d" (FSNode.mk [("x", FSNode.mk [("d", FSNode.mk [] [])] [])] []) rfl).trans
      (by decide)

/-- Claim C3 (counterexample): at template depth 4 the build loop's
path arithmetic is wrong — because `getnode` empties `sub_elements`,
the level-2 `adddir` receives only the level-1 segment as its path and
raises `KeyError`, so the insertion produces nothing at all. -/
theorem insertItem_depth4_fails :
    insertItem (FSNode.mk [] []) ["a", "b", "c", "d"] 1 = none := rfl

/-- Claim C3 (amended): at the fixed template depth 3 and with a
nonempty first segment, `insert` behaves as specified: a directory
node exists at `[a]` and at `[a, b]`, and `(c ↦ i)` is written into
the file map of the node at `[a, b]`, overwriting any previous
identifier of that name. -/
theorem insertItem_depth3 (t : FSNode) (a b c : String) (i : Nat) (ha : a ≠ "") :
    ∃ t3, insertItem t [a, b, c] i = some t3 ∧
      (FSNode.getnodeNav [a] t3).isSome = true ∧
      ∃ nab, FSNode.getnodeNav [a, b] t3 = some nab ∧ alookup c nab.files = some i := by
  obtain ⟨ca, hca⟩ := ensureDir_lookup a t
  obtain ⟨cb, hcb⟩ := ensureDir_lookup b ca
  refine ⟨FSNode.mk
      (aset a
        (FSNode.mk (aset b (setFile c i cb) (ensureDir b ca).dirs) (ensureDir b ca).files)
        (aset a (ensureDir b ca) (ensureDir a t).dirs))
      (ensureDir a t).files, ?_, ?_, ?_⟩
  · unfold insertItem
    rw [show List.range (List.length [a, b, c] - 1) = [0, 1] from rfl]
    simp [mountLoop, getLevel, FSNode.adddir, FSNode.addfile, normElems, updateAt,
      FSNode.getnodeRest, FSNode.dirs_mk, FSNode.files_mk, hca, hcb, ha,
      alookup_aset_self]
  · simp [FSNode.getnodeNav, FSNode.dirs_mk, alookup_aset_self]
  · refine ⟨setFile c i cb, ?_, ?_⟩
    · simp [FSNode.getnodeNav, FSNode.dirs_mk, alookup_aset_self]
    · simp [setFile, FSNode.files_mk, alookup_aset_self]

theorem insertItem_depth3_w :
    ∃ t3, insertItem (FSNode.mk [] []) ["x", "y", "z"] 7 = some t3 ∧
      (FSNode.getnodeNav ["x"] t3).isSome = true ∧
      ∃ nab, FSNode.getnodeNav ["x", "y"] t3 = some nab ∧ alookup "z" nab.files = some 7 :=
  insertItem_depth3 (FSNode.mk [] []) "x" "y" "z" 7 (by decide)

/-- Claim C7: every rendered segment value obeys the sanitization
rule (backslash, slash, colon and a leading dot become underscore on
text fields), the four position fields are zero-padded to width 2,
and — applied after the substitution — an empty artist, album or title
falls back to its "Unknown" form and a zero year to "Unknown Year". -/
theorem template_mapping_spec (item : Item) :
    (template_mapping item).genre = sanitize item.genre ∧
    (template_mapping item).composer = sanitize item.composer ∧
    (template_mapping item).grouping = sanitize item.grouping ∧
    (template_mapping item).lyrics = sanitize item.lyrics ∧
    (template_mapping item).comments = sanitize item.comments ∧
    (template_mapping item).track = pad2 item.track ∧
    (template_mapping item).tracktotal = pad2 item.tracktotal ∧
    (template_mapping item).disc = pad2 item.disc ∧
    (template_mapping item).disctotal = pad2 item.disctotal ∧
    (item.artist = "" → (template_mapping item).artist = "Unknown Artist") ∧
    (item.artist ≠ "" → (template_mapping item).artist = sanitize item.artist) ∧
    (item.album = "" → (template_mapping item).album = "Unknown Album") ∧
    (item.album ≠ "" → (template_mapping item).album = sanitize item.album) ∧
    (item.title = "" → (template_mapping item).title = "Unknown Track") ∧
    (item.title ≠ "" → (template_mapping item).title = sanitize item.title) ∧
    (item.year = 0 → (template_mapping item).year = "Unknown Year") := by
  refine ⟨?_, ?_, ?_, ?_, ?_, ?_, ?_, ?_, ?_, ?_, ?_, ?_, ?_, ?_, ?_, ?_⟩
  · exact (fixDud_untouched _).1
  · exact (fixDud_untouched _).2.1
  · exact (fixDud_untouched _).2.2.1
  · exact (fixDud_untouched _).2.2.2.1
  · exact (fixDud_untouched _).2.2.2.2.1
  · exact (fixDud_untouched _).2.2.2.2.2.1
  · exact (fixDud_untouched _).2.2.2.2.2.2.1
  · exact (fixDud_untouched _).2.2.2.2.2.2.2.1
  · exact (fixDud_untouched _).2.2.2.2.2.2.2.2
  · intro h
    exact fixDud_artist_empty _ ((sanitize_eq_empty_iff item.artist).mpr h)
  · intro h
    exact fixDud_artist_keep _ (fun hh => h ((sanitize_eq_empty_iff item.artist).mp hh))
  · intro h
    exact fixDud_album_empty _ ((sanitize_eq_empty_iff item.album).mpr h)
  · intro h
    exact fixDud_album_keep _ (fun hh => h ((sanitize_eq_empty_iff item.album).mp hh))
  · intro h
    exact fixDud_title_empty _ ((sanitize_eq_empty_iff item.title).mpr h)
  · intro h
    exact fixDud_title_keep _ (fun hh => h ((sanitize_eq_empty_iff item.title).mp hh))
  · intro h
    exact fixDud_year_zero _ (show toString item.year = "0" by rw [h]; rfl)

theorem template_mapping_spec_w :
    (template_mapping itemDemo).title = "Unknown Track" ∧
    (template_mapping itemDemo).year = "Unknown Year" ∧
    (template_mapping itemDemo).artist = "a_b" ∧
    (template_mapping itemDemo).track = "03" := by
  obtain ⟨hg, hcm, hgr, hly, hco, htr, htt, hd, hdt, hae, han, hbe, hbn, hte, htn, hye⟩ :=
    template_mapping_spec itemDemo
  exact ⟨hte rfl, hye rfl, (han (by decide)).trans (by decide), htr.trans (by decide)⟩

end BeetFs
